import Mathlib

/-!
Verification development for the vmcloak provisioning pipeline
(src/vmcloak/main.py).  The Python CLI commands `init`, `install`,
`modify`, `snapshot`, `clone`, `export` and `register` are embedded as
pure Lean functions over an explicit repository state (the SQLAlchemy
session) together with an event trace recording hypervisor commands and
guest-agent RPCs in program order.
-/

/-- Image record, mirroring `vmcloak.repository.Image` as used by
`main.py` (fields read or written there). -/
structure Image where
  id : Nat
  name : String
  path : String
  osversion : String
  servicepack : String
  mode : String
  ipaddr : String
  port : Nat
  adapter : String
  netmask : String
  gateway : String
  cpus : Nat
  ramsize : Nat
deriving DecidableEq

/-- Snapshot record, mirroring `vmcloak.repository.Snapshot` as created
at main.py lines 474-475. -/
structure Snapshot where
  id : Nat
  image_id : Nat
  vmname : String
  ipaddr : String
  port : Nat
  hostname : String
deriving DecidableEq

/-- The durable store backing `Session()`: the persisted Image and
Snapshot rows. -/
structure Repo where
  images : List Image
  snapshots : List Snapshot
deriving DecidableEq

/-- Modelled from the spec: `vmcloak.repository.image_path` is defined in
`repository.py`, which is not under src/; it is the directory in which
disk images are stored.  Its concrete value is immaterial to the claims. -/
def image_path : String := "image"

/-- Disk path built as `os.path.join(image_path, "%s.vdi" % name)`
(main.py lines 46 and 181). -/
def mkVdiPath (name : String) : String := image_path ++ "/" ++ name ++ ".vdi"

/-- Modelled from the spec: the per-OS handler classes (winxp.py, win7.py,
win81.py, win10.py) are not under src/; per section 9 of the spec each
exposes a service pack string, a NIC type and a guest interface name. -/
structure OSHandler where
  service_pack : String
  nictype : String
  interface : String

/-- The `depends` attribute of a dependency class: absent, a single
string, or a list of strings (main.py lines 296-299 normalise the
string case with `isinstance(depends, basestring)`). -/
inductive Depends where
  | nodecl : Depends
  | one : String → Depends
  | many : List String → Depends
deriving DecidableEq

/-- Python truthiness of the `depends` attribute (`if d.depends:`,
main.py line 296). -/
def Depends.truthy : Depends → Bool
  | Depends.nodecl => false
  | Depends.one s => !s.isEmpty
  | Depends.many l => !l.isEmpty

/-- The normalised child list iterated at main.py line 301. -/
def Depends.toList : Depends → List String
  | Depends.nodecl => []
  | Depends.one s => [s]
  | Depends.many l => l

/-- A dependency definition from `vmcloak.dependencies.names`; only the
`depends` attribute is consulted by `main.py`. -/
structure DepDef where
  depends : Depends
deriving DecidableEq

/-- Lookup in the dependency registry `vmcloak.dependencies.names`. -/
def lookupReg (reg : List (String × DepDef)) (n : String) : Option DepDef :=
  (reg.find? (fun p => p.1 == n)).map (fun p => p.2)

/-- Observable actions of one command invocation, in program order:
hypervisor commands (`vmcloak.vm.VirtualBox` methods), guest-agent RPCs
(`vmcloak.agent.Agent` methods), repository reads and commits, and
dependency executions (`d(...).run()`). -/
inductive Event where
  | repoLookup : String → Event
  | commitMode : Event
  | createVM : Event
  | osType : String → Event
  | setCpus : Nat → Event
  | setMouse : Event
  | setRam : Nat → Event
  | createHD : String → Event
  | attachHD : String → Bool → Event
  | attachISO : Event
  | detachISO : Event
  | hostonly : Event
  | startVM : Event
  | waitState : Event
  | detachHD : Event
  | compactHD : String → Event
  | deleteVM : Event
  | cloneHD : String → String → Event
  | takeSnap : Event
  | stopVM : Event
  | exportAppliance : String → Event
  | waitForHost : Event
  | agentPing : Event
  | agentShutdown : Event
  | agentReboot : Event
  | agentKill : Event
  | agentHostname : String → Event
  | agentResolution : Event
  | agentRemove : Event
  | agentStaticIP : Event
  | installRun : String → Option String → Event
  | snapCommit : Event
deriving DecidableEq

/-- Events that touch the hypervisor (VirtualBox driver commands). -/
def isHypervisor : Event → Bool
  | Event.createVM => true
  | Event.osType _ => true
  | Event.setCpus _ => true
  | Event.setMouse => true
  | Event.setRam _ => true
  | Event.createHD _ => true
  | Event.attachHD _ _ => true
  | Event.attachISO => true
  | Event.detachISO => true
  | Event.hostonly => true
  | Event.startVM => true
  | Event.waitState => true
  | Event.detachHD => true
  | Event.compactHD _ => true
  | Event.deleteVM => true
  | Event.cloneHD _ _ => true
  | Event.takeSnap => true
  | Event.stopVM => true
  | Event.exportAppliance _ => true
  | _ => false

/-- Recognises the commit that persists the `multiattach` mode flip. -/
def isCommit : Event → Bool
  | Event.commitMode => true
  | _ => false

/-- Recognises a dependency execution `d(...).run()`. -/
def isInstallRun : Event → Bool
  | Event.installRun _ _ => true
  | _ => false

/-- The events of a trace strictly before the mode-flip commit. -/
def priorCommit (evs : List Event) : List Event :=
  evs.takeWhile (fun e => !(isCommit e))

/-- Error outcomes of a command (`exit(1)` paths and uncaught Python
exceptions). -/
inductive Err where
  | imageNotFound : Err
  | imageExists : Err
  | imageLocked : Err
  | badExtension : Err
  | configError : Err
  | nameError : Err
  | snapshotNotFound : Err
deriving DecidableEq

/-- Environment parameters of a run: the dependency registry, which
dependency executions raise `DependencyError`, the OS-handler registry,
and the success of the external init preconditions (mounted ISO check,
serial-key acceptance, ISO build). -/
structure Params where
  reg : List (String × DepDef)
  fails : String → Option String → Bool
  H : String → OSHandler
  isoOk : Bool
  serialOk : Bool
  buildisoOk : Bool

/-- `session.query(Image).filter_by(name=name).first()`. -/
def findByName (repo : Repo) (name : String) : Option Image :=
  repo.images.find? (fun i => i.name == name)

/-- The OS versions handled by the `if/elif` handler chains
(main.py lines 239-252, 349-362, 421-434, 500-513); any other value
leaves `h` unbound, so the first use of `h` raises NameError. -/
def knownOS (s : String) : Bool :=
  s == "winxp" || s == "win7x86" || s == "win7x64" || s == "win81x86" ||
  s == "win81x64" || s == "win10x86" || s == "win10x64"

/-- A fresh primary key for an inserted Image row (database
autoincrement; any value distinct from all existing ids is faithful). -/
def maxId : List Image → Nat
  | [] => 0
  | i :: rest => max i.id (maxId rest)

def freshId (l : List Image) : Nat := maxId l + 1

/-- A fresh primary key for an inserted Snapshot row. -/
def maxSnapId : List Snapshot → Nat
  | [] => 0
  | s :: rest => max s.id (maxSnapId rest)

def freshSnapId (l : List Snapshot) : Nat := maxSnapId l + 1

/-- Python `x or default` for an optional integer option (`ramsize or
2048`, `cpus or image.cpus`, ...): `None` and `0` are falsy. -/
def pyOr (o : Option Nat) (d : Nat) : Nat :=
  match o with
  | none => d
  | some v => if v = 0 then d else v

/-- Splits a character list at the first occurrence of `sep`, when any. -/
def splitFirstAux (sep : Char) : List Char → Option (List Char × List Char)
  | [] => none
  | c :: cs =>
    if c = sep then some ([], cs)
    else match splitFirstAux sep cs with
      | none => none
      | some (l, r) => some (c :: l, r)

/-- Python `s.split(sep, 1)` for a one-character separator: the part
before the first separator and the remainder. -/
def splitOnce (sep : Char) (s : String) : String × String :=
  match splitFirstAux sep s.toList with
  | none => (s, "")
  | some (l, r) => (String.mk l, String.mk r)

/-- Python `sep in s` for a one-character separator. -/
def containsSub (sep : Char) (s : String) : Bool :=
  (splitFirstAux sep s.toList).isSome

/-- Python whitespace for `str.strip()`. -/
def isPySpace (c : Char) : Bool :=
  c = ' ' || c = '\t' || c = '\n' || c = '\r' || c = '\x0b' || c = '\x0c'

def dropLeadingSpace : List Char → List Char
  | [] => []
  | c :: cs => if isPySpace c then dropLeadingSpace cs else c :: cs

/-- Python `s.strip()`. -/
def pyStrip (s : String) : String :=
  String.mk ((dropLeadingSpace (dropLeadingSpace s.toList.reverse).reverse))

/-- Python `s.endswith(t)`. -/
def pyEndsWith (s t : String) : Bool :=
  if t.toList.length ≤ s.toList.length then
    decide (s.toList.drop (s.toList.length - t.toList.length) = t.toList)
  else false

/-- Dict assignment `settings[key] = value`. -/
def updateAssoc (m : List (String × String)) (k v : String) :
    List (String × String) :=
  if m.any (fun p => p.1 == k) then
    m.map (fun p => if p.1 == k then (k, v) else p)
  else m ++ [(k, v)]

/-- The token-partition loop of `install` (main.py lines 273-281) as a
function of the list it iterates: tokens with both a "." and an "="
become stripped key/value settings split on the first "=", tokens with a
":" become (name, version) pairs split on the first ":", all others
become (name, None). -/
def partitionAux : List String → List (String × String) →
    List (String × Option String) →
    List (String × String) × List (String × Option String)
  | [], s, d => (s, d)
  | t :: rest, s, d =>
    if containsSub '.' t && containsSub '=' t then
      let kv := splitOnce '=' t
      partitionAux rest (updateAssoc s (pyStrip kv.1) (pyStrip kv.2)) d
    else if containsSub ':' t then
      let nv := splitOnce ':' t
      partitionAux rest s (d ++ [(nv.1, some nv.2)])
    else
      partitionAux rest s (d ++ [(t, none)])

def partitionTokens (ts : List String) :
    List (String × String) × List (String × Option String) :=
  partitionAux ts [] []

/-- Parsing of one child reference at main.py lines 302-305: split on
the first ":" when present, version None otherwise. -/
def parseChild (c : String) : String × Option String :=
  if containsSub ':' c then ((splitOnce ':' c).1, some (splitOnce ':' c).2)
  else (c, none)

/-- Result of the child-install loop (main.py lines 301-309): the
dependency executions performed, whether an unknown child name raised
KeyError (uncaught), and whether an execution raised DependencyError. -/
structure ChildRes where
  evs : List Event
  crashed : Bool
  depErr : Bool

/-- The child-install loop at main.py lines 301-309: each child is
looked up in `vmcloak.dependencies.names` (a missing key raises KeyError)
and executed before the parent; a DependencyError stops the loop. -/
def childrenRun (reg : List (String × DepDef))
    (fails : String → Option String → Bool) : List String → ChildRes
  | [] => ⟨[], false, false⟩
  | c :: rest =>
    match lookupReg reg (parseChild c).1 with
    | none => ⟨[], true, false⟩
    | some _ =>
      if fails (parseChild c).1 (parseChild c).2 then
        ⟨[Event.installRun (parseChild c).1 (parseChild c).2], false, true⟩
      else
        let r := childrenRun reg fails rest
        ⟨Event.installRun (parseChild c).1 (parseChild c).2 :: r.evs,
         r.crashed, r.depErr⟩

/-- The dependency-install loop of `install` (main.py lines 283-321) on
a resolved (name, version) list: an unknown name breaks out of the loop;
if the definition declares children they are installed first, then the
VM is rebooted (`a.shutdown()`, `m.wait_for_state(shutdown=True)`,
`time.sleep(1)`, `m.start_vm(...)`, `wait_for_host(...)` -- lines
311-316, with no `ping()`), then the parent runs; a DependencyError (or
an uncaught KeyError from a child lookup) ends the loop with the events
performed so far. -/
def installLoopTrace (reg : List (String × DepDef))
    (fails : String → Option String → Bool) :
    List (String × Option String) → List Event
  | [] => []
  | (n, v) :: rest =>
    match lookupReg reg n with
    | none => []
    | some d =>
      if d.depends.truthy then
        let r := childrenRun reg fails d.depends.toList
        if r.crashed || r.depErr then r.evs
        else if fails n v then
          r.evs ++ [Event.agentShutdown, Event.waitState, Event.startVM,
                    Event.waitForHost, Event.installRun n v]
        else
          r.evs ++ [Event.agentShutdown, Event.waitState, Event.startVM,
                    Event.waitForHost, Event.installRun n v] ++
            installLoopTrace reg fails rest
      else
        if fails n v then [Event.installRun n v]
        else Event.installRun n v :: installLoopTrace reg fails rest

/-- Error outcome of the `install` command (main.py lines 223-328). -/
def installErr (repo : Repo) (name : String) : Option Err :=
  match findByName repo name with
  | none => some Err.imageNotFound
  | some img =>
    if img.mode == "normal" then
      if knownOS img.osversion then none else some Err.nameError
    else some Err.imageLocked

/-- Event trace of the `install` command (main.py lines 223-328).  The
image is loaded and the mode gate checked before any VirtualBox call;
then the VM shell is built and started and the agent pinged.  At lines
269-270 `settings = {}` and `dependencies = []` rebind the requested
token list to the empty list before the parsing loop at line 273, so the
partition runs on `[]` and the dependency loop receives no entries; the
`tokens` argument is therefore never consulted.  Finally the agent is
shut down and the disk compacted. -/
def installEvents (P : Params) (repo : Repo) (name : String)
    (tokens : List String) : List Event :=
  match findByName repo name with
  | none => [Event.repoLookup name]
  | some img =>
    if img.mode == "normal" then
      let evs1 := [Event.repoLookup name, Event.createVM,
                   Event.osType img.osversion, Event.setCpus img.cpus,
                   Event.setMouse, Event.setRam img.ramsize,
                   Event.attachHD img.path false, Event.detachISO]
      if knownOS img.osversion then
        let parsed := partitionTokens []
        evs1 ++ [Event.hostonly, Event.startVM, Event.waitForHost,
                 Event.agentPing] ++
          installLoopTrace P.reg P.fails parsed.2 ++
          [Event.agentShutdown, Event.waitState, Event.detachHD,
           Event.compactHD img.path, Event.deleteVM]
      else evs1
    else [Event.repoLookup name]

/-- Error outcome of the `modify` command (main.py lines 333-382). -/
def modifyErr (repo : Repo) (name : String) : Option Err :=
  match findByName repo name with
  | none => some Err.imageNotFound
  | some img =>
    if img.mode == "normal" then
      if knownOS img.osversion then none else some Err.nameError
    else some Err.imageLocked

/-- Event trace of the `modify` command (main.py lines 333-382). -/
def modifyEvents (repo : Repo) (name : String) : List Event :=
  match findByName repo name with
  | none => [Event.repoLookup name]
  | some img =>
    if img.mode == "normal" then
      let evs1 := [Event.repoLookup name, Event.createVM,
                   Event.osType img.osversion, Event.setCpus img.cpus,
                   Event.setMouse, Event.setRam img.ramsize,
                   Event.attachHD img.path false, Event.detachISO]
      if knownOS img.osversion then
        evs1 ++ [Event.hostonly, Event.startVM, Event.waitForHost,
                 Event.waitState, Event.detachHD,
                 Event.compactHD img.path, Event.deleteVM]
      else evs1
    else [Event.repoLookup name]

/-- Error outcome of the `export` command (main.py lines 482-530): the
file-extension gate comes first, before the session is even opened. -/
def exportErr (repo : Repo) (name filepath : String) : Option Err :=
  if !(pyEndsWith filepath ".ova" || pyEndsWith filepath ".ovf") then
    some Err.badExtension
  else
    match findByName repo name with
    | none => some Err.imageNotFound
    | some img =>
      if img.mode == "normal" then
        if knownOS img.osversion then none else some Err.nameError
      else some Err.imageLocked

/-- Event trace of the `export` command (main.py lines 482-530). -/
def exportEvents (repo : Repo) (name filepath : String) : List Event :=
  if !(pyEndsWith filepath ".ova" || pyEndsWith filepath ".ovf") then []
  else
    match findByName repo name with
    | none => [Event.repoLookup name]
    | some img =>
      if img.mode == "normal" then
        let evs1 := [Event.repoLookup name, Event.createVM,
                     Event.osType img.osversion, Event.setCpus img.cpus,
                     Event.setMouse, Event.setRam img.ramsize,
                     Event.attachHD img.path false, Event.detachISO]
        if knownOS img.osversion then
          evs1 ++ [Event.hostonly, Event.exportAppliance filepath,
                   Event.detachHD, Event.compactHD img.path, Event.deleteVM]
        else evs1
      else [Event.repoLookup name]

/-- Arguments of the `init` command (main.py lines 87-90) that the
modelled behaviour depends on. -/
structure InitArgs where
  name : String
  winxp : Bool
  win7x86 : Bool
  win7x64 : Bool
  win81x86 : Bool
  win81x64 : Bool
  win10x86 : Bool
  win10x64 : Bool
  vm : String
  ip : String
  port : Nat
  adapter : String
  netmask : String
  gateway : String
  dns : String
  cpus : Nat
  ramsize : Option Nat
  resolution : String
  vmVisible : Bool
  debug : Bool
deriving DecidableEq

/-- The `if/elif` variant chain of `init` (main.py lines 104-137),
yielding the osversion tag and the default ram size applied by
`ramsize = ramsize or <default>`. -/
def initSelect (a : InitArgs) : Option (String × Nat) :=
  if a.winxp then some ("winxp", 1024)
  else if a.win7x86 then some ("win7x86", 1024)
  else if a.win7x64 then some ("win7x64", 2048)
  else if a.win81x86 then some ("win81x86", 2048)
  else if a.win81x64 then some ("win81x64", 2048)
  else if a.win10x86 then some ("win10x86", 2048)
  else if a.win10x64 then some ("win10x64", 2048)
  else none

/-- The Image row inserted by `init` (main.py lines 212-216). -/
def mkInitImage (P : Params) (repo : Repo) (a : InitArgs) (osv : String)
    (ramdef : Nat) : Image :=
  ⟨freshId repo.images, a.name, mkVdiPath a.name, osv,
   (P.H osv).service_pack, "normal", a.ip, a.port, a.adapter, a.netmask,
   a.gateway, a.cpus, pyOr a.ramsize ramdef⟩

/-- Repository effect of the `init` command (main.py lines 87-217): the
name must be free, the machinery must be "virtualbox", a variant flag
must be given, and the external preconditions (mounted ISO directory,
serial key, ISO build) must succeed; then a fresh Image row with
`mode="normal"` is inserted. -/
def initRepo (P : Params) (repo : Repo) (a : InitArgs) : Repo :=
  match findByName repo a.name with
  | some _ => repo
  | none =>
    if a.vm != "virtualbox" then repo
    else
      match initSelect a with
      | none => repo
      | some (osv, ramdef) =>
        if P.isoOk && P.serialOk && P.buildisoOk then
          { repo with images := repo.images ++ [mkInitImage P repo a osv ramdef] }
        else repo

/-- Error outcome of the `init` command. -/
def initErr (P : Params) (repo : Repo) (a : InitArgs) : Option Err :=
  match findByName repo a.name with
  | some _ => some Err.imageExists
  | none =>
    if a.vm != "virtualbox" then some Err.configError
    else
      match initSelect a with
      | none => some Err.configError
      | some _ =>
        if P.isoOk && P.serialOk && P.buildisoOk then none
        else some Err.configError

/-- The record produced by `clone` (main.py lines 51-58):
`make_transient` detaches the loaded row, then identity, mode, name and
path are replaced and the result is inserted as a new row; all other
fields are retained. -/
def cloneRecord (repo : Repo) (img : Image) (outname : String) : Image :=
  { img with id := freshId repo.images, mode := "normal", name := outname,
             path := mkVdiPath outname }

/-- Repository effect of the `clone` command (main.py lines 38-59). -/
def cloneRepo (repo : Repo) (name outname : String) : Repo :=
  match findByName repo name with
  | none => repo
  | some img =>
    { repo with images := repo.images ++ [cloneRecord repo img outname] }

/-- Event trace of the `clone` command: the disk is duplicated with
`m.clone_hd(image.path, outpath)` (main.py line 49). -/
def cloneEvents (repo : Repo) (name outname : String) : List Event :=
  match findByName repo name with
  | none => [Event.repoLookup name]
  | some img =>
    [Event.repoLookup name, Event.cloneHD img.path (mkVdiPath outname)]

/-- Arguments of the `snapshot` command (main.py lines 410-411) that the
modelled behaviour depends on. -/
structure SnapArgs where
  name : String
  vmname : String
  ipaddr : String
  resolution : Option String
  ramsize : Option Nat
  cpus : Option Nat
  hostname : String
  adapter : Option String
  vmVisible : Bool
deriving DecidableEq

/-- Sets `mode = "multiattach"` on every row with the given id
(`image.mode = "multiattach"; session.commit()`, main.py lines 437-438). -/
def flipMode (images : List Image) (targetId : Nat) : List Image :=
  images.map (fun j =>
    if j.id = targetId then { j with mode := "multiattach" } else j)

/-- The Snapshot row inserted by `snapshot` (main.py lines 474-475):
vmname, the assigned ipaddr, the agent port copied from the Image, and
the assigned hostname. -/
def mkSnap (repo : Repo) (img : Image) (a : SnapArgs) : Snapshot :=
  ⟨freshSnapId repo.snapshots, img.id, a.vmname, a.ipaddr, img.port,
   a.hostname⟩

/-- Repository effect of the `snapshot` command (main.py lines 410-477):
once the image is loaded its mode is flipped to "multiattach" and
committed; the Snapshot row is inserted only at the very end of the
successful run (an unknown osversion raises NameError at the first use
of `h`, after the flip but before the insert). -/
def snapRepo (repo : Repo) (a : SnapArgs) : Repo :=
  match findByName repo a.name with
  | none => repo
  | some img =>
    if knownOS img.osversion then
      ⟨flipMode repo.images img.id, repo.snapshots ++ [mkSnap repo img a]⟩
    else ⟨flipMode repo.images img.id, repo.snapshots⟩

/-- Event trace of the `snapshot` command (main.py lines 410-477): load
image, flip and commit the mode, build and start the multi-attach VM,
wait and ping, set hostname, reboot and reconnect, optionally set the
resolution, remove the provisioning artifacts, assign the static IP,
take the hypervisor snapshot, stop the VM, insert the Snapshot row. -/
def snapEvents (repo : Repo) (a : SnapArgs) : List Event :=
  match findByName repo a.name with
  | none => [Event.repoLookup a.name]
  | some img =>
    if knownOS img.osversion then
      [Event.repoLookup a.name, Event.commitMode, Event.createVM,
       Event.osType img.osversion, Event.setCpus (pyOr a.cpus img.cpus),
       Event.setMouse, Event.setRam (pyOr a.ramsize img.ramsize),
       Event.attachHD img.path true, Event.hostonly, Event.startVM,
       Event.waitForHost, Event.agentPing, Event.agentHostname a.hostname,
       Event.agentReboot, Event.agentKill, Event.waitForHost,
       Event.agentPing] ++
        (match a.resolution with
          | some _ => [Event.agentResolution]
          | none => []) ++
        [Event.agentRemove, Event.agentStaticIP, Event.takeSnap,
         Event.stopVM, Event.snapCommit]
    else
      [Event.repoLookup a.name, Event.commitMode, Event.createVM,
       Event.osType img.osversion, Event.setCpus (pyOr a.cpus img.cpus),
       Event.setMouse, Event.setRam (pyOr a.ramsize img.ramsize),
       Event.attachHD img.path true]

/-- Error outcome of the `snapshot` command. -/
def snapErr (repo : Repo) (a : SnapArgs) : Option Err :=
  match findByName repo a.name with
  | none => some Err.imageNotFound
  | some img =>
    if knownOS img.osversion then none else some Err.nameError

/-- Repository effect of the `register` command (main.py lines 388-398):
it only reads a Snapshot row. -/
def registerErr (repo : Repo) (vmname : String) : Option Err :=
  match repo.snapshots.find? (fun s => s.vmname == vmname) with
  | none => some Err.snapshotNotFound
  | some _ => none

/-- One invocation of any of the seven CLI commands. -/
inductive Op where
  | opInit : InitArgs → Op
  | opInstall : String → List String → Bool → Op
  | opModify : String → Bool → Op
  | opSnapshot : SnapArgs → Op
  | opClone : String → String → Op
  | opExport : String → String → Op
  | opRegister : String → Op

/-- Repository effect of one command invocation.  `install`, `modify`,
`export` and `register` never call `session.commit()`, so they leave the
persisted rows unchanged. -/
def applyOp (P : Params) (o : Op) (repo : Repo) : Repo :=
  match o with
  | Op.opInit a => initRepo P repo a
  | Op.opInstall _ _ _ => repo
  | Op.opModify _ _ => repo
  | Op.opSnapshot a => snapRepo repo a
  | Op.opClone n o2 => cloneRepo repo n o2
  | Op.opExport _ _ => repo
  | Op.opRegister _ => repo

/-- Checks that after every `shutdown()` issued by the dependency loop
the next events are exactly: wait for power-off, start VM, wait for the
host to be reachable, and then immediately a dependency execution (the
parent's `d(...).run()`).  In particular nothing -- no agent RPC -- sits
between the shutdown and the reachability confirmation, and no `ping()`
(nor any other event) follows the reachability wait before the parent
runs. -/
def rebootShape : List Event → Bool
  | [] => true
  | e :: rest =>
    match e with
    | Event.agentShutdown =>
      match rest with
      | Event.waitState :: Event.startVM :: Event.waitForHost ::
          Event.installRun _ _ :: rest2 => rebootShape rest2
      | _ => false
    | _ => rebootShape rest

/-- Checks the reboot protocol as the spec states it, with a `ping()`
immediately after the reachability wait. -/
def pingAfterReachable : List Event → Bool
  | [] => true
  | e :: rest =>
    match e with
    | Event.agentShutdown =>
      match rest with
      | Event.waitState :: Event.startVM :: Event.waitForHost ::
          Event.agentPing :: rest2 => pingAfterReachable rest2
      | _ => false
    | _ => pingAfterReachable rest

/-- Concrete fixtures used to evaluate the model on closed inputs. -/
def hFix : OSHandler := ⟨"1", "Am79C973", "Local Area Connection"⟩

def noFail : String → Option String → Bool := fun _ _ => false

def regFix : List (String × DepDef) :=
  [("a", ⟨Depends.nodecl⟩), ("b", ⟨Depends.many ["c"]⟩),
   ("c", ⟨Depends.nodecl⟩), ("python27", ⟨Depends.nodecl⟩)]

def pFix : Params := ⟨regFix, noFail, fun _ => hFix, true, true, true⟩

def imgFix : Image :=
  ⟨1, "img", mkVdiPath "img", "win7x64", "1", "normal", "192.168.56.2",
   8000, "vboxnet0", "255.255.255.0", "192.168.56.1", 1, 2048⟩

def repoFix : Repo := ⟨[imgFix], []⟩

def imgLocked : Image :=
  ⟨2, "locked", mkVdiPath "locked", "win7x64", "1", "multiattach",
   "192.168.56.2", 8000, "vboxnet0", "255.255.255.0", "192.168.56.1", 1, 2048⟩

def repoLocked : Repo := ⟨[imgLocked], []⟩

def imgM : Image :=
  ⟨3, "m", mkVdiPath "m", "win7x64", "1", "multiattach", "192.168.56.2",
   8000, "vboxnet0", "255.255.255.0", "192.168.56.1", 1, 2048⟩

def repoM : Repo := ⟨[imgM], []⟩

def imgC8 : Image :=
  ⟨1, "a", mkVdiPath "a", "win7x64", "1", "normal", "192.168.56.2",
   8000, "vboxnet0", "255.255.255.0", "192.168.56.1", 1, 1024⟩

def repoC8 : Repo := ⟨[imgC8], []⟩

def aFix : InitArgs :=
  ⟨"cuckoo1", false, false, true, false, false, false, false,
   "virtualbox", "192.168.56.2", 8000, "vboxnet0", "255.255.255.0",
   "192.168.56.1", "8.8.8.8", 1, none, "1024x768", false, false⟩

def repo0 : Repo := ⟨[], []⟩

/-! ## Helper lemmas -/

theorem mem_of_findByName {repo : Repo} {n : String} {img : Image}
    (h : findByName repo n = some img) : img ∈ repo.images :=
  List.mem_of_find?_eq_some h

theorem maxId_ge {l : List Image} {i : Image} (h : i ∈ l) : i.id ≤ maxId l := by
  induction l with
  | nil => cases h
  | cons x xs ih =>
    rcases List.mem_cons.1 h with rfl | hmem
    · exact le_max_left _ _
    · exact le_trans (ih hmem) (le_max_right _ _)

theorem freshId_ne {l : List Image} {i : Image} (h : i ∈ l) :
    i.id ≠ freshId l := by
  have := maxId_ge h
  unfold freshId
  omega

theorem nodupIdEq {l : List Image}
    (hids : (l.map Image.id).Nodup) {i j : Image}
    (hi : i ∈ l) (hj : j ∈ l) (hid : j.id = i.id) : j = i :=
  List.inj_on_of_nodup_map hids hj hi hid

theorem mono_unchanged {l : List Image}
    (hids : (l.map Image.id).Nodup) {i : Image} (hi : i ∈ l)
    (hmode : i.mode = "multiattach") :
    ∀ j ∈ l, j.id = i.id → j.mode = "multiattach" := by
  intro j hj hid
  rw [nodupIdEq hids hi hj hid]
  exact hmode

theorem mono_append {l : List Image} {x : Image}
    (hids : (l.map Image.id).Nodup) {i : Image} (hi : i ∈ l)
    (hmode : i.mode = "multiattach") (hx : x.id = freshId l) :
    ∀ j ∈ l ++ [x], j.id = i.id → j.mode = "multiattach" := by
  intro j hj hid
  rcases List.mem_append.1 hj with hmem | hmem
  · exact mono_unchanged hids hi hmode j hmem hid
  · rcases List.mem_singleton.1 hmem with rfl
    exact absurd (hid.symm.trans hx) (freshId_ne hi)

theorem mono_flip {l : List Image} (t : Nat)
    (hids : (l.map Image.id).Nodup) {i : Image} (hi : i ∈ l)
    (hmode : i.mode = "multiattach") :
    ∀ j ∈ flipMode l t, j.id = i.id → j.mode = "multiattach" := by
  intro j hj hid
  rcases List.mem_map.1 hj with ⟨x, hx, rfl⟩
  by_cases hxt : x.id = t
  · rw [if_pos hxt]
  · rw [if_neg hxt] at hid ⊢
    rw [nodupIdEq hids hi hx hid]
    exact hmode

theorem childrenRun_all_installRuns (reg : List (String × DepDef))
    (fails : String → Option String → Bool) (cs : List String) :
    ((childrenRun reg fails cs).evs).all isInstallRun = true := by
  induction cs with
  | nil => rfl
  | cons c rest ih =>
    unfold childrenRun
    cases hlk : lookupReg reg (parseChild c).1 with
    | none => rfl
    | some dd =>
      by_cases hf : fails (parseChild c).1 (parseChild c).2
      · simp [hf, isInstallRun]
      · simp only [hf, if_neg, Bool.false_eq_true, not_false_iff]
        simpa [List.all_cons, isInstallRun] using ih

theorem rebootShape_append (l rest : List Event)
    (h : l.all isInstallRun = true) :
    rebootShape (l ++ rest) = rebootShape rest := by
  induction l with
  | nil => rfl
  | cons e tl ih =>
    rw [List.all_cons, Bool.and_eq_true] at h
    cases e <;>
      first
        | exact ih h.2
        | exact absurd h.1 (by simp [isInstallRun])

theorem findByName_append {repo : Repo} {n : String} {x : Image}
    (h : findByName repo n = none) (hx : x.name = n) :
    findByName ⟨repo.images ++ [x], repo.snapshots⟩ n = some x := by
  unfold findByName at h ⊢
  rw [List.find?_append, h]
  simp [hx]

/-! ## Claim theorems -/

/-- Claim C3 (code bug).  The dependency loop itself (main.py lines
283-321), applied to the resolved list [a, b] where b declares child c,
would realise the order a, c, one reboot cycle, b -- but the `install`
command rebinds its `dependencies` argument to the empty list at line
270 before the parsing loop, so the actual trace of
`install img [a, b]` contains no dependency execution at all. -/
theorem install_children_dead_code :
    installLoopTrace regFix noFail [("a", none), ("b", none)] =
      [Event.installRun "a" none, Event.installRun "c" none,
       Event.agentShutdown, Event.waitState, Event.startVM,
       Event.waitForHost, Event.installRun "b" none]
    ∧ (installEvents pFix repoFix "img" ["a", "b"]).filter isInstallRun
        = [] :=
  ⟨by decide, by decide⟩

/-- Claim C4 (code bug).  The dependency loop itself (main.py lines
283-321), applied to the resolved list [a, x, b] with x unknown, would
install a, abort at x and never attempt b -- but the `install` command
rebinds its `dependencies` argument to the empty list at line 270, so
the actual trace of `install img [a, x, b]` installs nothing (a
included) and the unknown-name check is never reached. -/
theorem unknown_dep_dead_code :
    installLoopTrace regFix noFail [("a", none), ("x", none), ("b", none)]
      = [Event.installRun "a" none]
    ∧ (installEvents pFix repoFix "img" ["a", "x", "b"]).filter
        isInstallRun = [] :=
  ⟨by decide, by decide⟩

/-- Claim C5 (code bug).  The partition loop (main.py lines 273-281),
applied to a raw token list, splits it into settings (tokens with both
"." and "=") and (name, version) dependency references as the claim
states -- but the `install` command rebinds its `dependencies` argument
to the empty list at line 270 before this loop, so the raw tokens are
discarded and none of the parsed references is ever installed. -/
theorem partition_dead_code :
    partitionTokens ["foo.bar=baz", "python27:2.7", "dotnet45"] =
      ([("foo.bar", "baz")],
       [("python27", some "2.7"), ("dotnet45", none)])
    ∧ (installEvents pFix repoFix "img"
        ["foo.bar=baz", "python27:2.7", "dotnet45"]).filter isInstallRun
        = [] :=
  ⟨by decide, by decide⟩

/-- Claim C6 counterexample.  The reboot cycle of the dependency loop
(main.py lines 311-316) issues no `ping()` after the reachability wait:
with b declaring child c, after shutdown, power-off wait, start and
reachability wait, the next event is the parent's execution, not a
ping.  The claimed shape (ping immediately after reachability) is
violated. -/
theorem reboot_no_ping_cex :
    installLoopTrace regFix noFail [("b", none)] =
      [Event.installRun "c" none, Event.agentShutdown, Event.waitState,
       Event.startVM, Event.waitForHost, Event.installRun "b" none]
    ∧ pingAfterReachable (installLoopTrace regFix noFail [("b", none)])
        = false :=
  ⟨by decide, by decide⟩

/-- Claim C6 (amended).  Every reboot cycle performed by the dependency
loop is exactly: agent shutdown, wait for the VM power-off state, start
the VM, wait for the host to be reachable, immediately followed by the
parent dependency's execution -- in this order, with no agent RPC (and
no other event) between the shutdown and the confirmed reachability,
and no ping (nor any other event) between the reachability wait and the
parent's execution.  Universally: `rebootShape` demands the exact
five-event neighbourhood of every shutdown, so a trace that pinged
after the reachability wait would falsify this theorem. -/
theorem reboot_cycle_shape (reg : List (String × DepDef))
    (fails : String → Option String → Bool)
    (deps : List (String × Option String)) :
    rebootShape (installLoopTrace reg fails deps) = true := by
  induction deps with
  | nil => rfl
  | cons d rest ih =>
    obtain ⟨n, v⟩ := d
    unfold installLoopTrace
    cases hlk : lookupReg reg n with
    | none => rfl
    | some dd =>
      by_cases ht : dd.depends.truthy
      · simp only [ht, if_pos]
        by_cases hcd : (childrenRun reg fails dd.depends.toList).crashed ||
            (childrenRun reg fails dd.depends.toList).depErr
        · simp only [hcd, if_pos]
          have h0 := rebootShape_append
            (childrenRun reg fails dd.depends.toList).evs []
            (childrenRun_all_installRuns reg fails dd.depends.toList)
          simpa using h0
        · simp only [hcd, Bool.false_eq_true, if_neg, not_false_iff]
          by_cases hf : fails n v
          · simp only [hf, if_pos]
            rw [rebootShape_append _ _
              (childrenRun_all_installRuns reg fails dd.depends.toList)]
            rfl
          · simp only [hf, Bool.false_eq_true, if_neg, not_false_iff]
            rw [List.append_assoc, rebootShape_append _ _
              (childrenRun_all_installRuns reg fails dd.depends.toList)]
            exact ih
      · simp only [ht, Bool.false_eq_true, if_neg, not_false_iff]
        by_cases hf : fails n v
        · simp only [hf, if_pos]
          rfl
        · simp only [hf, Bool.false_eq_true, if_neg, not_false_iff]
          exact ih

/-- Claim C1.  No operation ever changes a persisted Image's mode from
"multiattach" back to "normal": for every command invocation, any row
that carries the id of a multiattach image afterwards is still
multiattach (clone inserts a fresh row with a fresh id instead of
mutating the source). -/
theorem image_mode_monotone (P : Params) (o : Op) (repo : Repo)
    (hids : (repo.images.map Image.id).Nodup)
    (i : Image) (hi : i ∈ repo.images) (hmode : i.mode = "multiattach") :
    ∀ j ∈ (applyOp P o repo).images, j.id = i.id → j.mode = "multiattach" := by
  cases o with
  | opInstall n t v => exact mono_unchanged hids hi hmode
  | opModify n v => exact mono_unchanged hids hi hmode
  | opExport n f => exact mono_unchanged hids hi hmode
  | opRegister v => exact mono_unchanged hids hi hmode
  | opInit a =>
    show ∀ j ∈ (initRepo P repo a).images, j.id = i.id → j.mode = "multiattach"
    unfold initRepo
    split
    · exact mono_unchanged hids hi hmode
    · split
      · exact mono_unchanged hids hi hmode
      · split
        · exact mono_unchanged hids hi hmode
        · split
          · exact mono_append hids hi hmode rfl
          · exact mono_unchanged hids hi hmode
  | opClone n o2 =>
    show ∀ j ∈ (cloneRepo repo n o2).images, j.id = i.id → j.mode = "multiattach"
    unfold cloneRepo
    split
    · exact mono_unchanged hids hi hmode
    · exact mono_append hids hi hmode rfl
  | opSnapshot a =>
    show ∀ j ∈ (snapRepo repo a).images, j.id = i.id → j.mode = "multiattach"
    unfold snapRepo
    split
    · exact mono_unchanged hids hi hmode
    · split
      · exact mono_flip _ hids hi hmode
      · exact mono_flip _ hids hi hmode

theorem image_mode_monotone_witness :
    imgM ∈ (applyOp pFix (Op.opClone "m" "m2") repoM).images
    ∧ imgM.mode = "multiattach" :=
  ⟨by decide,
   image_mode_monotone pFix (Op.opClone "m" "m2") repoM (by decide) imgM
     (by decide) rfl imgM (by decide) rfl⟩

/-- Claim C2.  For an Image whose mode is not "normal", each of
`install`, `modify` and `export` rejects with ImageLockedError right
after the repository lookup: the only event is the lookup itself (no
hypervisor command, no agent RPC), and the persisted repository is
unchanged. -/
theorem locked_rejects (P : Params) (repo : Repo) (name : String)
    (tokens : List String) (filepath : String) (img : Image)
    (hfind : findByName repo name = some img)
    (hmode : img.mode ≠ "normal")
    (hext : (pyEndsWith filepath ".ova" || pyEndsWith filepath ".ovf")
      = true) :
    installErr repo name = some Err.imageLocked
    ∧ installEvents P repo name tokens = [Event.repoLookup name]
    ∧ modifyErr repo name = some Err.imageLocked
    ∧ modifyEvents repo name = [Event.repoLookup name]
    ∧ exportErr repo name filepath = some Err.imageLocked
    ∧ exportEvents repo name filepath = [Event.repoLookup name]
    ∧ applyOp P (Op.opInstall name tokens false) repo = repo
    ∧ applyOp P (Op.opModify name false) repo = repo
    ∧ applyOp P (Op.opExport name filepath) repo = repo := by
  refine ⟨?_, ?_, ?_, ?_, ?_, ?_, rfl, rfl, rfl⟩ <;>
    simp [installErr, installEvents, modifyErr, modifyEvents, exportErr,
          exportEvents, hfind, hmode, hext]

theorem locked_rejects_witness :
    installErr repoLocked "locked" = some Err.imageLocked
    ∧ installEvents pFix repoLocked "locked" [] = [Event.repoLookup "locked"]
    ∧ modifyErr repoLocked "locked" = some Err.imageLocked
    ∧ modifyEvents repoLocked "locked" = [Event.repoLookup "locked"]
    ∧ exportErr repoLocked "locked" "out.ova" = some Err.imageLocked
    ∧ exportEvents repoLocked "locked" "out.ova"
        = [Event.repoLookup "locked"]
    ∧ applyOp pFix (Op.opInstall "locked" [] false) repoLocked = repoLocked
    ∧ applyOp pFix (Op.opModify "locked" false) repoLocked = repoLocked
    ∧ applyOp pFix (Op.opExport "locked" "out.ova") repoLocked
        = repoLocked :=
  locked_rejects pFix repoLocked "locked" [] "out.ova" imgLocked
    (by decide) (by decide) (by decide)

/-- Claim C7.  In `snapshot`, the mode flip is committed before any
hypervisor event; at most one Snapshot row is inserted per invocation;
whenever the image was found, the repository afterwards holds a row with
its id and mode "multiattach"; and any newly inserted Snapshot stores
the VM instance name, the assigned ip address, the agent port copied
from the Image, the assigned hostname, and the found image's id. -/
theorem snapshot_flip_first (repo : Repo) (a : SnapArgs) :
    (priorCommit (snapEvents repo a)).all (fun e => !(isHypervisor e))
        = true
    ∧ (snapRepo repo a).snapshots.length ≤ repo.snapshots.length + 1
    ∧ (∀ img, findByName repo a.name = some img →
        ∃ j ∈ (snapRepo repo a).images, j.id = img.id
          ∧ j.mode = "multiattach")
    ∧ (∀ s ∈ (snapRepo repo a).snapshots, s ∉ repo.snapshots →
        ∃ img, findByName repo a.name = some img
          ∧ s.vmname = a.vmname ∧ s.ipaddr = a.ipaddr ∧ s.port = img.port
          ∧ s.hostname = a.hostname ∧ s.image_id = img.id) := by
  refine ⟨?_, ?_, ?_, ?_⟩
  · unfold snapEvents
    split
    · rfl
    · split
      · rfl
      · rfl
  · unfold snapRepo
    split
    · exact Nat.le_succ _
    · split
      · simp
      · exact Nat.le_succ _
  · intro img hf
    have himg : img ∈ repo.images := mem_of_findByName hf
    have hjmem : ({ img with mode := "multiattach" } : Image) ∈
        flipMode repo.images img.id :=
      List.mem_map.2 ⟨img, himg, by simp⟩
    unfold snapRepo
    simp only [hf]
    split
    · exact ⟨{ img with mode := "multiattach" }, hjmem, rfl, rfl⟩
    · exact ⟨{ img with mode := "multiattach" }, hjmem, rfl, rfl⟩
  · intro s hs hnot
    unfold snapRepo at hs
    cases hf : findByName repo a.name with
    | none =>
      rw [hf] at hs
      exact absurd hs hnot
    | some img =>
      rw [hf] at hs
      by_cases hk : knownOS img.osversion
      · simp only [hk, if_true] at hs
        rcases List.mem_append.1 hs with h | h
        · exact absurd h hnot
        · rcases List.mem_singleton.1 h with rfl
          exact ⟨img, rfl, rfl, rfl, rfl, rfl, rfl⟩
      · simp only [hk, Bool.false_eq_true, if_false] at hs
        exact absurd hs hnot

/-- Claim C8 counterexample.  Cloning an image onto its own name reuses
the source's disk path: with source "a" stored at image_path/a.vdi,
`clone a a` inserts a record whose path equals the source's path, so the
produced path is not always distinct from the source's. -/
theorem clone_same_path_cex :
    (cloneRepo repoC8 "a" "a").images.map Image.path =
      [mkVdiPath "a", mkVdiPath "a"]
    ∧ (cloneRepo repoC8 "a" "a").images.map Image.id = [1, 2]
    ∧ imgC8.path = mkVdiPath "a" := by
  decide

/-- Claim C8 (amended).  clone inserts a record with a fresh identity,
mode "normal", the requested new name, disk path image_path/newname.vdi
and all other fields identical to the source, leaving the persisted
source row unchanged; the new path is distinct from the source's path
whenever image_path/newname.vdi differs from it (in particular whenever
the new name differs from the name under which the source's disk was
stored), while cloning onto the source's own name reuses its path. -/
theorem clone_record_amended (repo : Repo) (name outname : String)
    (img : Image) (hfind : findByName repo name = some img)
    (hpath : mkVdiPath outname ≠ img.path) :
    (cloneRepo repo name outname).images =
      repo.images ++ [cloneRecord repo img outname]
    ∧ (∀ i2 ∈ repo.images, i2.id ≠ (cloneRecord repo img outname).id)
    ∧ (cloneRecord repo img outname).mode = "normal"
    ∧ (cloneRecord repo img outname).name = outname
    ∧ (cloneRecord repo img outname).path = mkVdiPath outname
    ∧ (cloneRecord repo img outname).path ≠ img.path
    ∧ (cloneRecord repo img outname).osversion = img.osversion
    ∧ (cloneRecord repo img outname).servicepack = img.servicepack
    ∧ (cloneRecord repo img outname).ipaddr = img.ipaddr
    ∧ (cloneRecord repo img outname).netmask = img.netmask
    ∧ (cloneRecord repo img outname).gateway = img.gateway
    ∧ (cloneRecord repo img outname).adapter = img.adapter
    ∧ (cloneRecord repo img outname).cpus = img.cpus
    ∧ (cloneRecord repo img outname).ramsize = img.ramsize
    ∧ (cloneRecord repo img outname).port = img.port := by
  refine ⟨?_, ?_, rfl, rfl, rfl, hpath, rfl, rfl, rfl, rfl, rfl, rfl,
    rfl, rfl, rfl⟩
  · unfold cloneRepo
    simp only [hfind]
  · intro i2 hi2
    exact freshId_ne hi2

theorem clone_record_amended_witness :
    (cloneRepo repoC8 "a" "b").images =
      repoC8.images ++ [cloneRecord repoC8 imgC8 "b"]
    ∧ (∀ i2 ∈ repoC8.images, i2.id ≠ (cloneRecord repoC8 imgC8 "b").id)
    ∧ (cloneRecord repoC8 imgC8 "b").mode = "normal"
    ∧ (cloneRecord repoC8 imgC8 "b").name = "b"
    ∧ (cloneRecord repoC8 imgC8 "b").path = mkVdiPath "b"
    ∧ (cloneRecord repoC8 imgC8 "b").path ≠ imgC8.path
    ∧ (cloneRecord repoC8 imgC8 "b").osversion = imgC8.osversion
    ∧ (cloneRecord repoC8 imgC8 "b").servicepack = imgC8.servicepack
    ∧ (cloneRecord repoC8 imgC8 "b").ipaddr = imgC8.ipaddr
    ∧ (cloneRecord repoC8 imgC8 "b").netmask = imgC8.netmask
    ∧ (cloneRecord repoC8 imgC8 "b").gateway = imgC8.gateway
    ∧ (cloneRecord repoC8 imgC8 "b").adapter = imgC8.adapter
    ∧ (cloneRecord repoC8 imgC8 "b").cpus = imgC8.cpus
    ∧ (cloneRecord repoC8 imgC8 "b").ramsize = imgC8.ramsize
    ∧ (cloneRecord repoC8 imgC8 "b").port = imgC8.port :=
  clone_record_amended repoC8 "a" "b" imgC8 (by decide) (by decide)

/-- Claim C9.  `init` with the win7x64 flag and no ram size resolves the
ram size to 2048 and inserts an Image with mode "normal" and a
servicepack string taken from the OS handler, which a subsequent lookup
by name returns. -/
theorem init_ram_default (P : Params) (repo : Repo) (a : InitArgs)
    (hfree : findByName repo a.name = none) (hvm : a.vm = "virtualbox")
    (hxp : a.winxp = false) (h786 : a.win7x86 = false)
    (h764 : a.win7x64 = true) (hram : a.ramsize = none)
    (hiso : P.isoOk = true) (hser : P.serialOk = true)
    (hbld : P.buildisoOk = true) :
    (initRepo P repo a).images =
      repo.images ++ [mkInitImage P repo a "win7x64" 2048]
    ∧ (mkInitImage P repo a "win7x64" 2048).ramsize = 2048
    ∧ (mkInitImage P repo a "win7x64" 2048).mode = "normal"
    ∧ (mkInitImage P repo a "win7x64" 2048).servicepack =
        (P.H "win7x64").service_pack
    ∧ findByName (initRepo P repo a) a.name =
        some (mkInitImage P repo a "win7x64" 2048) := by
  have h1 : initRepo P repo a =
      { repo with
        images := repo.images ++ [mkInitImage P repo a "win7x64" 2048] } := by
    unfold initRepo
    rw [hfree]
    simp [hvm, initSelect, hxp, h786, h764, hiso, hser, hbld]
  refine ⟨by rw [h1], by simp [mkInitImage, hram, pyOr], rfl, rfl, ?_⟩
  rw [h1]
  exact findByName_append hfree rfl

theorem init_ram_default_witness :
    (initRepo pFix repo0 aFix).images =
      repo0.images ++ [mkInitImage pFix repo0 aFix "win7x64" 2048]
    ∧ (mkInitImage pFix repo0 aFix "win7x64" 2048).ramsize = 2048
    ∧ (mkInitImage pFix repo0 aFix "win7x64" 2048).mode = "normal"
    ∧ (mkInitImage pFix repo0 aFix "win7x64" 2048).servicepack =
        (pFix.H "win7x64").service_pack
    ∧ findByName (initRepo pFix repo0 aFix) aFix.name =
        some (mkInitImage pFix repo0 aFix "win7x64" 2048) :=
  init_ram_default pFix repo0 aFix rfl rfl rfl rfl rfl rfl rfl rfl rfl

/-- Claim C10.  An `export` whose target path ends in neither ".ova"
nor ".ovf" is rejected before anything else happens: the error is the
extension error, the event trace is empty (no repository lookup, no
hypervisor command), and the repository is unchanged. -/
theorem export_bad_extension (P : Params) (repo : Repo)
    (name filepath : String)
    (hext : (pyEndsWith filepath ".ova" || pyEndsWith filepath ".ovf")
      = false) :
    exportErr repo name filepath = some Err.badExtension
    ∧ exportEvents repo name filepath = []
    ∧ applyOp P (Op.opExport name filepath) repo = repo := by
  refine ⟨?_, ?_, rfl⟩ <;> simp [exportErr, exportEvents, hext]

theorem export_bad_extension_witness :
    exportErr repoFix "img" "cuckoo.txt" = some Err.badExtension
    ∧ exportEvents repoFix "img" "cuckoo.txt" = []
    ∧ applyOp pFix (Op.opExport "img" "cuckoo.txt") repoFix = repoFix :=
  export_bad_extension pFix repoFix "img" "cuckoo.txt" (by decide)
